import Mathlib

/-!
Shallow embedding of the `refmove` crate: a move-only owning reference
(`RefMove`) together with its anchor mechanism (`StackAnchor`, `BoxAnchor`,
`IdentityAnchor`), the `downcast` operation on dynamically typed handles,
and the array-to-slice `BorrowMove` conversion.

Memory is modelled explicitly: a list of cells (each either initialized with
a value or uninitialized), a log of destructor invocations (`drops`), and an
undefined-behaviour flag (`ub`) that is raised when the model would read or
destruct an uninitialized cell.  Rust panics (the `assert!`/`expect` calls in
`borrow_move`) are modelled as `Except.error` carrying the panic message.
-/

namespace Refmove

/-- Memory addresses of the model (stack slots and heap cells alike). -/
abbrev Addr := Nat

/-- The machine state: `cells` maps addresses to their current content
(`none` = uninitialized / already destructed / deallocated), `drops` logs
every destructor invocation in order, and `ub` records whether undefined
behaviour (destructing or reading an uninitialized cell) has occurred. -/
structure Mem (V : Type) where
  cells : List (Option V)
  drops : List V
  ub : Bool
deriving DecidableEq

variable {V : Type}

/-- Reading the content at an address (the dereference of a raw pointer). -/
def Mem.read (m : Mem V) (a : Addr) : Option V :=
  m.cells.getD a none

/-- Allocating a fresh slot holding `v`; returns the new state and the
address of the slot.  Used to model both a stack slot coming into scope and
a heap allocation. -/
def Mem.alloc (m : Mem V) (v : V) : Mem V × Addr :=
  ({ m with cells := m.cells ++ [some v] }, m.cells.length)

/-- Models `std::ptr::drop_in_place`: runs the destructor of the value at
address `a`, leaving the cell logically uninitialized.  Calling it on an
uninitialized cell is undefined behaviour. -/
def drop_in_place (m : Mem V) (a : Addr) : Mem V :=
  match m.read a with
  | some v => { m with cells := m.cells.set a none, drops := m.drops ++ [v] }
  | none => { m with ub := true }

/-- Deallocation of a heap cell without running any destructor (dropping a
`Box` of `ManuallyDrop` content only frees the allocation). -/
def Mem.free (m : Mem V) (a : Addr) : Mem V :=
  { m with cells := m.cells.set a none }

/-- Models the host language dropping a plain owned value at scope exit:
its destructor runs once. -/
def Mem.dropValue (m : Mem V) (v : V) : Mem V :=
  { m with drops := m.drops ++ [v] }

/-- `RefMove<'a, T>`: a non-null owning pointer to content at a fixed
location.  The lifetime parameter and `PhantomData` have no runtime
content and are erased. -/
structure RefMove (V : Type) where
  ptr : Addr
deriving DecidableEq

/-- `RefMove::from_mut`: wraps the address of a `ManuallyDrop` slot. -/
def RefMove.from_mut (a : Addr) : RefMove V :=
  ⟨a⟩

/-- `RefMove::from_ptr`: wraps a raw pointer. -/
def RefMove.from_ptr (a : Addr) : RefMove V :=
  ⟨a⟩

/-- `RefMove::into_ptr`: consumes the handle (via `mem::forget`, so no
destructor runs) and yields the raw pointer. -/
def RefMove.into_ptr (r : RefMove V) : Addr :=
  r.ptr

/-- `RefMove::into_inner`: `ptr::read` the content out by value, then
`mem::forget(self)`.  The memory state is returned unchanged (no destructor
runs, the bits are merely copied out); the handle is consumed. -/
def RefMove.into_inner (m : Mem V) (r : RefMove V) : Mem V × Option V :=
  (m, m.read r.ptr)

/-- `Drop for RefMove`: `drop_in_place(self.ptr.as_ptr())`. -/
def RefMove.drop (m : Mem V) (r : RefMove V) : Mem V :=
  drop_in_place m r.ptr

/-- `StackAnchor<T>`: an `is_some` flag plus an inline `ManuallyDrop<T>`
slot; `content` is the address of that slot. -/
structure StackAnchor (V : Type) where
  is_some : Bool
  content : Addr
deriving DecidableEq

/-- `StackAnchor::anchor_from`: moves `content` into the anchor's inline
slot (a fresh stack slot in the model) and marks the anchor as holding. -/
def StackAnchor.anchor_from (m : Mem V) (content : V) : Mem V × StackAnchor V :=
  let al := m.alloc content
  (al.1, { is_some := true, content := al.2 })

/-- `StackAnchor::borrow_move`: asserts `is_some`, clears the flag and hands
out a `RefMove` to the inline slot.  The `assert!` panic is modelled as
`Except.error` with the panic message. -/
def StackAnchor.borrow_move (a : StackAnchor V) :
    Except String (StackAnchor V × RefMove V) :=
  if a.is_some then
    Except.ok ({ a with is_some := false }, RefMove.from_mut a.content)
  else
    Except.error "double borrow_move from StackAnchor"

/-- `Drop for StackAnchor`: destructs the inline content only when the
anchor still holds it (`ManuallyDrop::drop` guarded by `is_some`). -/
def StackAnchor.drop (m : Mem V) (a : StackAnchor V) : Mem V :=
  if a.is_some then drop_in_place m a.content else m

/-- `Box<T>`: an owning heap pointer (already-allocated cell). -/
structure Box (V : Type) where
  ptr : Addr
deriving DecidableEq

/-- `Box::new`: heap-allocates a cell holding `v`. -/
def Box.new (m : Mem V) (v : V) : Mem V × Box V :=
  let al := m.alloc v
  (al.1, ⟨al.2⟩)

/-- `BoxAnchor<T>`: an `is_some` flag plus a `Box<ManuallyDrop<T>>`;
`content` is the address of the reused heap cell. -/
structure BoxAnchor (V : Type) where
  is_some : Bool
  content : Addr
deriving DecidableEq

/-- `BoxAnchor::anchor_from`: `Box::from_raw(Box::into_raw(content) as *mut
ManuallyDrop<T>)` — a pure pointer cast reusing the caller's allocation.
The memory state is returned unchanged: no copy, no new allocation. -/
def BoxAnchor.anchor_from (m : Mem V) (b : Box V) : Mem V × BoxAnchor V :=
  (m, { is_some := true, content := b.ptr })

/-- `BoxAnchor::borrow_move`: asserts `is_some`, clears the flag and hands
out a `RefMove` to the heap cell. -/
def BoxAnchor.borrow_move (a : BoxAnchor V) :
    Except String (BoxAnchor V × RefMove V) :=
  if a.is_some then
    Except.ok ({ a with is_some := false }, RefMove.from_mut a.content)
  else
    Except.error "double borrow_move from BoxAnchor"

/-- Full drop glue of `BoxAnchor`: the explicit `Drop` impl destructs the
content when still held, then the `Box<ManuallyDrop<T>>` field is dropped,
which only deallocates (no content destructor). -/
def BoxAnchor.drop (m : Mem V) (a : BoxAnchor V) : Mem V :=
  let m1 := if a.is_some then drop_in_place m a.content else m
  m1.free a.content

/-- `IdentityAnchor<'a, T>`: an `Option` around an existing `RefMove`. -/
structure IdentityAnchor (V : Type) where
  content : Option (RefMove V)
deriving DecidableEq

/-- `IdentityAnchor::anchor_from`: stores the given handle. -/
def IdentityAnchor.anchor_from (content : RefMove V) : IdentityAnchor V :=
  ⟨some content⟩

/-- `IdentityAnchor::borrow_move`: `self.content.take().expect(...)` —
returns the stored handle, leaving `none`; panics (modelled as
`Except.error`) when already taken. -/
def IdentityAnchor.borrow_move (a : IdentityAnchor V) :
    Except String (IdentityAnchor V × RefMove V) :=
  match a.content with
  | some r => Except.ok (⟨none⟩, r)
  | none => Except.error "double borrow_move from IdentityAnchor"

/-- Drop glue of `IdentityAnchor`: dropping the `Option<RefMove>` field
drops the stored handle when present. -/
def IdentityAnchor.drop (m : Mem V) (a : IdentityAnchor V) : Mem V :=
  match a.content with
  | some r => RefMove.drop m r
  | none => m

/-- Runtime type identifiers (`std::any::TypeId`). -/
abbrev TypeId := Nat

/-- `RefMove<'a, dyn Any>` (and `dyn Any + Send`): a fat pointer — the data
address plus the erased concrete type's `TypeId` taken from the vtable. -/
structure DynRefMove (V : Type) where
  ptr : Addr
  ty : TypeId
deriving DecidableEq

/-- `<dyn Any>::is::<T>`: compares the vtable's `TypeId` with `T`'s. -/
def DynRefMove.is (r : DynRefMove V) (t : TypeId) : Bool :=
  r.ty == t

/-- `RefMove::into_ptr` at an erased type: decomposes the fat pointer,
consuming the handle without running any destructor. -/
def DynRefMove.into_ptr (r : DynRefMove V) : Addr × TypeId :=
  (r.ptr, r.ty)

/-- `RefMove::<dyn Any>::downcast::<T>`: when the runtime type matches, the
handle is decomposed with `into_ptr` and re-wrapped thin with `from_ptr` at
the same address; otherwise the original handle is returned in `Err`. -/
def DynRefMove.downcast (r : DynRefMove V) (t : TypeId) :
    Except (DynRefMove V) (RefMove V) :=
  if r.is t then
    Except.ok (RefMove.from_ptr r.into_ptr.1)
  else
    Except.error r

/-- `RefMove::<dyn Any + Send>::downcast::<T>`: textually identical second
impl for the `Send`-bounded trait object. -/
def DynRefMove.downcastSend (r : DynRefMove V) (t : TypeId) :
    Except (DynRefMove V) (RefMove V) :=
  if r.is t then
    Except.ok (RefMove.from_ptr r.into_ptr.1)
  else
    Except.error r

/-- `Drop for RefMove` at an erased type: `drop_in_place` on the fat
pointer destructs the pointee through the vtable. -/
def DynRefMove.drop (m : Mem V) (r : DynRefMove V) : Mem V :=
  drop_in_place m r.ptr

/-- The array lengths for which `BorrowMove<[T]> for [T; N]` is generated:
the two `define_array_borrow!` invocations. -/
def arrayBorrowLens : List Nat :=
  [0, 1, 2, 3, 4, 5, 6, 7, 8, 9, 10, 11, 12, 13, 14, 15] ++
    [16, 17, 18, 19, 20, 21, 22, 23, 24, 25, 26, 27, 28, 29, 30, 31, 32]

/-- `RefMove<'a, [T]>`: a fat pointer — data address plus length. -/
structure SliceRefMove (V : Type) where
  ptr : Addr
  len : Nat
deriving DecidableEq

/-- `<[T; N] as BorrowMove<[T]>>::borrow_move`: the body is just `self`,
an unsizing coercion of the handle from array to slice — same data address,
length `n`, no memory effect.  Defined only for the generated lengths
(`none` models the absence of an impl for other `N`). -/
def arrayBorrowMove (m : Mem V) (n : Nat) (r : RefMove V) :
    Mem V × Option (SliceRefMove V) :=
  (m, if n ∈ arrayBorrowLens then some ⟨r.ptr, n⟩ else none)

/-! ### Helper lemmas -/

/-- Reading a freshly allocated slot yields the allocated value. -/
theorem Mem.read_alloc (m : Mem V) (v : V) :
    (m.alloc v).1.read (m.alloc v).2 = some v := by
  simp [Mem.alloc, Mem.read, List.getD_eq_getElem?_getD, List.getElem?_append_right]

/-- Destructing an initialized cell logs exactly one destructor run and
preserves the undefined-behaviour flag. -/
theorem drop_in_place_of_read (m : Mem V) (a : Addr) (v : V)
    (h : m.read a = some v) :
    drop_in_place m a
      = { m with cells := m.cells.set a none, drops := m.drops ++ [v] } := by
  simp [drop_in_place, h]

/-- Destructing the slot just allocated: one destructor run, flag kept. -/
theorem drop_in_place_alloc (m : Mem V) (v : V) :
    (drop_in_place (m.alloc v).1 (m.alloc v).2).drops = m.drops ++ [v] ∧
      (drop_in_place (m.alloc v).1 (m.alloc v).2).ub = m.ub := by
  rw [drop_in_place_of_read (m.alloc v).1 (m.alloc v).2 v (Mem.read_alloc m v)]
  simp [Mem.alloc]

/-! ### Claim theorems -/

/-- Claim C1: for every content type and every origin (stack value via
`StackAnchor`, heap-owned value via `BoxAnchor`, existing handle via
`IdentityAnchor`), wrapping a value in an anchor, deriving a handle with
`borrow_move`, dropping the handle without extracting, and then dropping
the drained anchor runs the content's destructor exactly once: the drop log
gains exactly one entry and no undefined behaviour occurs. -/
theorem exactly_once_destruction (m0 : Mem V) (v w : V) (h : RefMove V)
    (hlive : m0.read h.ptr = some w) :
    (∃ a1 r, ((StackAnchor.anchor_from m0 v).2).borrow_move = Except.ok (a1, r) ∧
      (StackAnchor.drop (RefMove.drop (StackAnchor.anchor_from m0 v).1 r) a1).drops
        = m0.drops ++ [v] ∧
      (StackAnchor.drop (RefMove.drop (StackAnchor.anchor_from m0 v).1 r) a1).ub
        = m0.ub) ∧
    (∃ a1 r,
      ((BoxAnchor.anchor_from (Box.new m0 v).1 (Box.new m0 v).2).2).borrow_move
        = Except.ok (a1, r) ∧
      (BoxAnchor.drop (RefMove.drop (Box.new m0 v).1 r) a1).drops
        = m0.drops ++ [v] ∧
      (BoxAnchor.drop (RefMove.drop (Box.new m0 v).1 r) a1).ub = m0.ub) ∧
    (∃ a1 r, (IdentityAnchor.anchor_from h).borrow_move = Except.ok (a1, r) ∧
      (IdentityAnchor.drop (RefMove.drop m0 r) a1).drops = m0.drops ++ [w] ∧
      (IdentityAnchor.drop (RefMove.drop m0 r) a1).ub = m0.ub) := by
  obtain ⟨hd, hu⟩ := drop_in_place_alloc m0 v
  refine ⟨⟨⟨false, m0.cells.length⟩, ⟨m0.cells.length⟩, rfl, ?_, ?_⟩,
    ⟨⟨false, m0.cells.length⟩, ⟨m0.cells.length⟩, rfl, ?_, ?_⟩,
    ⟨⟨none⟩, h, rfl, ?_, ?_⟩⟩
  · simpa [StackAnchor.drop, StackAnchor.anchor_from, RefMove.drop, Mem.alloc]
      using hd
  · simpa [StackAnchor.drop, StackAnchor.anchor_from, RefMove.drop, Mem.alloc]
      using hu
  · simpa [BoxAnchor.drop, BoxAnchor.anchor_from, Box.new, RefMove.drop,
      Mem.free, Mem.alloc] using hd
  · simpa [BoxAnchor.drop, BoxAnchor.anchor_from, Box.new, RefMove.drop,
      Mem.free, Mem.alloc] using hu
  · simp [IdentityAnchor.drop, RefMove.drop, drop_in_place_of_read m0 h.ptr w hlive]
  · simp [IdentityAnchor.drop, RefMove.drop, drop_in_place_of_read m0 h.ptr w hlive]

/-- A concrete one-cell memory used to instantiate liveness hypotheses. -/
def mem7 : Mem Nat :=
  { cells := [some 7], drops := [], ub := false }

/-- Witness for C1 at the concrete inputs: memory `mem7`, stack/heap value
`42`, and the live handle at address `0` holding `7`. -/
theorem exactly_once_destruction_witness :
    Mem.read mem7 (RefMove.ptr (⟨0⟩ : RefMove Nat)) = some 7 ∧
    ((∃ a1 r, ((StackAnchor.anchor_from mem7 42).2).borrow_move = Except.ok (a1, r) ∧
      (StackAnchor.drop (RefMove.drop (StackAnchor.anchor_from mem7 42).1 r) a1).drops
        = mem7.drops ++ [42] ∧
      (StackAnchor.drop (RefMove.drop (StackAnchor.anchor_from mem7 42).1 r) a1).ub
        = mem7.ub) ∧
    (∃ a1 r,
      ((BoxAnchor.anchor_from (Box.new mem7 42).1 (Box.new mem7 42).2).2).borrow_move
        = Except.ok (a1, r) ∧
      (BoxAnchor.drop (RefMove.drop (Box.new mem7 42).1 r) a1).drops
        = mem7.drops ++ [42] ∧
      (BoxAnchor.drop (RefMove.drop (Box.new mem7 42).1 r) a1).ub = mem7.ub) ∧
    (∃ a1 r, (IdentityAnchor.anchor_from (⟨0⟩ : RefMove Nat)).borrow_move
        = Except.ok (a1, r) ∧
      (IdentityAnchor.drop (RefMove.drop mem7 r) a1).drops = mem7.drops ++ [7] ∧
      (IdentityAnchor.drop (RefMove.drop mem7 r) a1).ub = mem7.ub)) :=
  ⟨by decide, exactly_once_destruction mem7 42 7 ⟨0⟩ (by decide)⟩

/-- Claim C2: extracting with `into_inner` reads the content out by value
and disarms destruction: the memory state is unchanged by the extraction,
the drained anchor's later drop performs no cleanup, and the only
destructor run in the whole scenario is the caller-side drop of the
extracted value — exactly once, on that value.  Stated for both the stack
and the heap origin. -/
theorem into_inner_disarms (m0 : Mem V) (v : V) :
    (∃ a1 r, ((StackAnchor.anchor_from m0 v).2).borrow_move = Except.ok (a1, r) ∧
      RefMove.into_inner (StackAnchor.anchor_from m0 v).1 r
        = ((StackAnchor.anchor_from m0 v).1, some v) ∧
      StackAnchor.drop (StackAnchor.anchor_from m0 v).1 a1
        = (StackAnchor.anchor_from m0 v).1 ∧
      (Mem.dropValue (StackAnchor.drop (StackAnchor.anchor_from m0 v).1 a1) v).drops
        = m0.drops ++ [v]) ∧
    (∃ a1 r,
      ((BoxAnchor.anchor_from (Box.new m0 v).1 (Box.new m0 v).2).2).borrow_move
        = Except.ok (a1, r) ∧
      RefMove.into_inner (Box.new m0 v).1 r = ((Box.new m0 v).1, some v) ∧
      (BoxAnchor.drop (Box.new m0 v).1 a1).drops = m0.drops ∧
      (BoxAnchor.drop (Box.new m0 v).1 a1).ub = m0.ub ∧
      (Mem.dropValue (BoxAnchor.drop (Box.new m0 v).1 a1) v).drops
        = m0.drops ++ [v]) := by
  have hr := Mem.read_alloc m0 v
  refine ⟨⟨⟨false, m0.cells.length⟩, ⟨m0.cells.length⟩, rfl, ?_, rfl, ?_⟩,
    ⟨⟨false, m0.cells.length⟩, ⟨m0.cells.length⟩, rfl, ?_, ?_, ?_, ?_⟩⟩
  · simpa [RefMove.into_inner, StackAnchor.anchor_from] using hr
  · simp [Mem.dropValue, StackAnchor.drop, StackAnchor.anchor_from, Mem.alloc]
  · simpa [RefMove.into_inner, Box.new, BoxAnchor.anchor_from] using hr
  · simp [BoxAnchor.drop, Box.new, Mem.free, Mem.alloc]
  · simp [BoxAnchor.drop, Box.new, Mem.free, Mem.alloc]
  · simp [Mem.dropValue, BoxAnchor.drop, Box.new, Mem.free, Mem.alloc]

/-- Claim C3: for each anchor variant, `borrow_move` on a freshly
constructed anchor succeeds, and a second `borrow_move` on the same
(updated) anchor instance panics — modelled as `Except.error`. -/
theorem double_borrow_move_fails (m0 : Mem V) (v : V) (h : RefMove V) :
    (∃ a1 r, ((StackAnchor.anchor_from m0 v).2).borrow_move = Except.ok (a1, r) ∧
      ∃ msg, a1.borrow_move = Except.error msg) ∧
    (∃ a1 r,
      ((BoxAnchor.anchor_from (Box.new m0 v).1 (Box.new m0 v).2).2).borrow_move
        = Except.ok (a1, r) ∧
      ∃ msg, a1.borrow_move = Except.error msg) ∧
    (∃ a1 r, (IdentityAnchor.anchor_from h).borrow_move = Except.ok (a1, r) ∧
      ∃ msg, a1.borrow_move = Except.error msg) :=
  ⟨⟨⟨false, m0.cells.length⟩, ⟨m0.cells.length⟩, rfl, _, rfl⟩,
    ⟨⟨false, (Box.new m0 v).2.ptr⟩, ⟨(Box.new m0 v).2.ptr⟩, rfl, _, rfl⟩,
    ⟨⟨none⟩, h, rfl, _, rfl⟩⟩

/-- Claim C4: `downcast` is total and never panics: it either succeeds
(exactly when the vtable's runtime type equals the candidate) with a new
handle at the same address whose drop behaves identically to dropping the
original, or fails returning the original handle itself unchanged; the
`dyn Any + Send` impl behaves identically. -/
theorem downcast_total (r : DynRefMove V) (t : TypeId) :
    ((∃ r2, r.downcast t = Except.ok r2 ∧ r2.ptr = r.ptr ∧ r.ty = t ∧
        ∀ m : Mem V, RefMove.drop m r2 = DynRefMove.drop m r) ∨
      (r.downcast t = Except.error r ∧ r.ty ≠ t)) ∧
    r.downcastSend t = r.downcast t := by
  refine ⟨?_, rfl⟩
  by_cases hty : r.ty = t
  · exact Or.inl ⟨⟨r.ptr⟩, by simp [DynRefMove.downcast, DynRefMove.is, hty,
      DynRefMove.into_ptr, RefMove.from_ptr], rfl, hty, fun m => rfl⟩
  · exact Or.inr ⟨by simp [DynRefMove.downcast, DynRefMove.is, hty], hty⟩

/-- Claim C5: the heap-origin content address is preserved end to end: the
`BoxAnchor` reuses the `Box` allocation without touching memory, the
anchor's content address and the borrowed handle's pointer equal the
original `Box` pointer, and the unborrowed anchor's final destruction
destructs in place at that same address and then deallocates it, running
the destructor exactly once. -/
theorem box_anchor_identity (m0 : Mem V) (v : V) :
    (BoxAnchor.anchor_from (Box.new m0 v).1 (Box.new m0 v).2).1
      = (Box.new m0 v).1 ∧
    ((BoxAnchor.anchor_from (Box.new m0 v).1 (Box.new m0 v).2).2).content
      = (Box.new m0 v).2.ptr ∧
    (∃ a1 r,
      ((BoxAnchor.anchor_from (Box.new m0 v).1 (Box.new m0 v).2).2).borrow_move
        = Except.ok (a1, r) ∧ r.ptr = (Box.new m0 v).2.ptr ∧
        a1.content = (Box.new m0 v).2.ptr) ∧
    (BoxAnchor.drop (Box.new m0 v).1
        ((BoxAnchor.anchor_from (Box.new m0 v).1 (Box.new m0 v).2).2))
      = Mem.free (drop_in_place (Box.new m0 v).1 (Box.new m0 v).2.ptr)
          (Box.new m0 v).2.ptr ∧
    (BoxAnchor.drop (Box.new m0 v).1
        ((BoxAnchor.anchor_from (Box.new m0 v).1 (Box.new m0 v).2).2)).drops
      = m0.drops ++ [v] := by
  refine ⟨rfl, rfl, ⟨⟨false, (Box.new m0 v).2.ptr⟩, ⟨(Box.new m0 v).2.ptr⟩,
    rfl, rfl, rfl⟩, rfl, ?_⟩
  have hd := (drop_in_place_alloc m0 v).1
  simpa [BoxAnchor.drop, BoxAnchor.anchor_from, Box.new, Mem.free, Mem.alloc]
    using hd

/-- Claim C6: `IdentityAnchor` is a pure pass-through: anchoring a handle
and borrowing it back returns the very same handle (same pointer, same
content), and dropping the drained anchor afterwards has no effect at all
on memory — no copy, no destructor run. -/
theorem identity_anchor_passthrough (h : RefMove V) (m : Mem V) :
    (IdentityAnchor.anchor_from h).borrow_move = Except.ok (⟨none⟩, h) ∧
    IdentityAnchor.drop m (⟨none⟩ : IdentityAnchor V) = m :=
  ⟨rfl, rfl⟩

/-- Claim C7: an anchor destroyed while still holding its content runs the
content's destructor exactly once; once `borrow_move` has been taken, the
anchor's destruction destroys nothing (for the stack anchor it is a no-op,
for the heap anchor it only deallocates, logging no destructor run). -/
theorem anchor_drop_responsibility (m0 : Mem V) (v : V) :
    ((StackAnchor.drop (StackAnchor.anchor_from m0 v).1
        (StackAnchor.anchor_from m0 v).2).drops = m0.drops ++ [v] ∧
      (StackAnchor.drop (StackAnchor.anchor_from m0 v).1
        (StackAnchor.anchor_from m0 v).2).ub = m0.ub) ∧
    ((BoxAnchor.drop (Box.new m0 v).1
        (BoxAnchor.anchor_from (Box.new m0 v).1 (Box.new m0 v).2).2).drops
      = m0.drops ++ [v] ∧
      (BoxAnchor.drop (Box.new m0 v).1
        (BoxAnchor.anchor_from (Box.new m0 v).1 (Box.new m0 v).2).2).ub
      = m0.ub) ∧
    (∃ a1 r, ((StackAnchor.anchor_from m0 v).2).borrow_move = Except.ok (a1, r) ∧
      ∀ m1 : Mem V, StackAnchor.drop m1 a1 = m1) ∧
    (∃ a1 r,
      ((BoxAnchor.anchor_from (Box.new m0 v).1 (Box.new m0 v).2).2).borrow_move
        = Except.ok (a1, r) ∧
      ∀ m1 : Mem V, (BoxAnchor.drop m1 a1).drops = m1.drops ∧
        (BoxAnchor.drop m1 a1).ub = m1.ub) := by
  obtain ⟨hd, hu⟩ := drop_in_place_alloc m0 v
  refine ⟨⟨?_, ?_⟩, ⟨?_, ?_⟩,
    ⟨⟨false, m0.cells.length⟩, ⟨m0.cells.length⟩, rfl, fun m1 => rfl⟩,
    ⟨⟨false, (Box.new m0 v).2.ptr⟩, ⟨(Box.new m0 v).2.ptr⟩, rfl,
      fun m1 => ⟨?_, ?_⟩⟩⟩
  · simpa [StackAnchor.drop, StackAnchor.anchor_from] using hd
  · simpa [StackAnchor.drop, StackAnchor.anchor_from] using hu
  · simpa [BoxAnchor.drop, BoxAnchor.anchor_from, Box.new, Mem.free, Mem.alloc]
      using hd
  · simpa [BoxAnchor.drop, BoxAnchor.anchor_from, Box.new, Mem.free, Mem.alloc]
      using hu
  · simp [BoxAnchor.drop, Mem.free]
  · simp [BoxAnchor.drop, Mem.free]

/-- Counterexample to claim C8 as stated: two distinct `StackAnchor`
instances (different slot addresses, i.e. different anchors) produce
byte-for-byte identical diagnostics on a second `borrow_move`, so the
diagnostic cannot identify which anchor instance was misused. -/
theorem borrow_move_diagnostic_counterexample :
    (⟨false, 0⟩ : StackAnchor Nat) ≠ (⟨false, 1⟩ : StackAnchor Nat) ∧
    StackAnchor.borrow_move (⟨false, 0⟩ : StackAnchor Nat)
      = StackAnchor.borrow_move (⟨false, 1⟩ : StackAnchor Nat) ∧
    StackAnchor.borrow_move (⟨false, 0⟩ : StackAnchor Nat)
      = Except.error "double borrow_move from StackAnchor" :=
  ⟨by decide, rfl, rfl⟩

/-- Claim C8 (amended): a second `borrow_move` on the same anchor instance
fails immediately during that call with a panic whose diagnostic identifies
which anchor variant (`StackAnchor`, `BoxAnchor`, or `IdentityAnchor`) was
misused — the three variant messages are pairwise distinct — but not which
particular instance. -/
theorem borrow_move_diagnostic_variant (m0 : Mem V) (v : V) (h : RefMove V) :
    (∃ a1 r, ((StackAnchor.anchor_from m0 v).2).borrow_move = Except.ok (a1, r) ∧
      a1.borrow_move = Except.error "double borrow_move from StackAnchor") ∧
    (∃ a1 r,
      ((BoxAnchor.anchor_from (Box.new m0 v).1 (Box.new m0 v).2).2).borrow_move
        = Except.ok (a1, r) ∧
      a1.borrow_move = Except.error "double borrow_move from BoxAnchor") ∧
    (∃ a1 r, (IdentityAnchor.anchor_from h).borrow_move = Except.ok (a1, r) ∧
      a1.borrow_move = Except.error "double borrow_move from IdentityAnchor") ∧
    ("double borrow_move from StackAnchor" ≠ "double borrow_move from BoxAnchor" ∧
      "double borrow_move from StackAnchor"
        ≠ "double borrow_move from IdentityAnchor" ∧
      "double borrow_move from BoxAnchor"
        ≠ "double borrow_move from IdentityAnchor") :=
  ⟨⟨⟨false, m0.cells.length⟩, ⟨m0.cells.length⟩, rfl, rfl⟩,
    ⟨⟨false, (Box.new m0 v).2.ptr⟩, ⟨(Box.new m0 v).2.ptr⟩, rfl, rfl⟩,
    ⟨⟨none⟩, h, rfl, rfl⟩,
    by decide, by decide, by decide⟩

/-- Claim C9: the array-to-slice `borrow_move` exists exactly for array
lengths 0 through 32, and where it exists it returns a slice handle at the
same data address with the array's length, leaving memory (and hence the
destructor log) untouched — no copy, no destructor run. -/
theorem array_borrow_move_range (m : Mem V) (n : Nat) (r : RefMove V) :
    (arrayBorrowMove m n r).1 = m ∧
    (arrayBorrowMove m n r).2
      = (if n ≤ 32 then some ⟨r.ptr, n⟩ else none) := by
  refine ⟨rfl, ?_⟩
  have hl : arrayBorrowLens = List.range 33 := by decide
  by_cases hn : n ≤ 32
  · have hm : n ∈ arrayBorrowLens := by
      rw [hl, List.mem_range]; omega
    simp [arrayBorrowMove, hm, hn]
  · have hm : n ∉ arrayBorrowLens := by
      rw [hl, List.mem_range]; omega
    simp [arrayBorrowMove, hm, hn]

end Refmove
